import Mathlib

/-!
Shallow embedding of `src/CodeGen_Vulkan_Dev.cpp` (Halide's experimental Vulkan
SPIR-V code generator) and proofs about it.

The C++ emitter (`CodeGen_Vulkan_Dev::SPIRVEmitter`) walks the Halide IR and
appends 32-bit words to four section buffers (`spir_v_header`,
`spir_v_entrypoints`, `spir_v_types`, `spir_v_kernels`), allocating result
identifiers from a monotone counter `next_id` and interning types and
constants in maps.  We model the emitter state as an explicit record, the
visitor as a fuel-indexed function into `Except EmitError EmitterState`
(fatal `internal_error` / `user_error` become the error cases), and machine
words as `Nat` with explicit `% 2^32` where a packed word is stored.

The `allocated` field is a ghost list recording, in order, every identifier
handed out by `next_id++`; it has no counterpart in the C++ but lets us state
the identifier-bound property of `compile_to_src`.
-/

namespace VulkanSpv

/-! ## SPIR-V opcode and enum values (from spirv/spirv.h) -/

def SpvMagicNumber : Nat := 0x07230203
def SpvVersion : Nat := 0x00010000
def SpvSourceLanguageUnknown : Nat := 0
def SpvStorageClassFunction : Nat := 7
def SpvLoopControlMaskNone : Nat := 0

def SpvOpString : Nat := 7
def SpvOpTypeBool : Nat := 20
def SpvOpTypeInt : Nat := 21
def SpvOpTypeFloat : Nat := 22
def SpvOpTypeVector : Nat := 23
def SpvOpTypeStruct : Nat := 30
def SpvOpTypePointer : Nat := 32
def SpvOpConstant : Nat := 43
def SpvOpConstantNull : Nat := 46
def SpvOpVariable : Nat := 59
def SpvOpLoad : Nat := 61
def SpvOpStore : Nat := 62
def SpvOpVectorInsertDynamic : Nat := 78
def SpvOpCompositeConstruct : Nat := 80
def SpvOpIAdd : Nat := 128
def SpvOpFAdd : Nat := 129
def SpvOpISub : Nat := 130
def SpvOpFSub : Nat := 131
def SpvOpIMul : Nat := 132
def SpvOpFMul : Nat := 133
def SpvOpUDiv : Nat := 134
def SpvOpSDiv : Nat := 135
def SpvOpFDiv : Nat := 136
def SpvOpUMod : Nat := 137
def SpvOpSMod : Nat := 139
def SpvOpFMod : Nat := 141
def SpvOpLogicalOr : Nat := 166
def SpvOpLogicalAnd : Nat := 167
def SpvOpLogicalNot : Nat := 168
def SpvOpSelect : Nat := 169
def SpvOpSLessThanEqual : Nat := 179
def SpvOpPhi : Nat := 245
def SpvOpLoopMerge : Nat := 246
def SpvOpLabel : Nat := 248
def SpvOpBranch : Nat := 249
def SpvOpBranchConditional : Nat := 250

/-! ## Halide types

`halide_type_code_t`: Int = 0, UInt = 1, Float = 2, Handle = 3.  A Halide
`Type` is (code, bits, lanes); `bytes() = (bits + 7) / 8 * lanes`. -/

inductive TypeCode : Type
  | tInt
  | tUInt
  | tFloat
  | tHandle
deriving DecidableEq, Repr

def TypeCode.toNat : TypeCode → Nat
  | .tInt => 0
  | .tUInt => 1
  | .tFloat => 2
  | .tHandle => 3

structure HType : Type where
  code : TypeCode
  bits : Nat
  lanes : Nat
deriving DecidableEq, Repr

def HType.bytes (t : HType) : Nat := (t.bits + 7) / 8 * t.lanes

def HType.with_lanes (t : HType) (l : Nat) : HType := { t with lanes := l }

def HType.is_float (t : HType) : Bool := t.code = TypeCode.tFloat

def HType.is_bool (t : HType) : Bool := t.code = TypeCode.tUInt && t.bits = 1

def HType.is_int (t : HType) : Bool := t.code = TypeCode.tInt

def HType.is_uint (t : HType) : Bool := t.code = TypeCode.tUInt

def HType.is_int_or_uint (t : HType) : Bool := t.is_int || t.is_uint

def HType.is_vector (t : HType) : Bool := t.lanes ≠ 1

def int32T : HType := ⟨TypeCode.tInt, 32, 1⟩

def uint32T : HType := ⟨TypeCode.tUInt, 32, 1⟩

def float32T : HType := ⟨TypeCode.tFloat, 32, 1⟩

def bool1T : HType := ⟨TypeCode.tUInt, 1, 1⟩

/-! ## Emitter state and error model -/

inductive EmitError : Type
  | internalError (msg : String)
  | userError (msg : String)
deriving DecidableEq, Repr

structure EmitterState : Type where
  next_id : Nat
  id : Nat
  spir_v_header : List Nat
  spir_v_entrypoints : List Nat
  spir_v_types : List Nat
  spir_v_kernels : List Nat
  type_map : List (HType × Nat)
  pointer_type_map_local : List (HType × Nat)
  constant_map : List (List Nat × Nat)
  symbol_table : List (String × Nat)
  allocated : List Nat
deriving DecidableEq, Repr

def alookup {α : Type} [DecidableEq α] (m : List (α × Nat)) (k : α) : Option Nat :=
  (m.find? (fun p => decide (p.1 = k))).map (fun p => p.2)

/-- Truncation to a 32-bit machine word, used where the C++ stores a packed
word into a `uint32_t`. -/
def w32 (n : Nat) : Nat := n % 2 ^ 32

/-- The state change of `next_id++`: bump the counter; the ghost field
`allocated` records the identifier just handed out, most recent first. -/
def bumpId (s : EmitterState) : EmitterState :=
  { s with next_id := s.next_id + 1, allocated := s.next_id :: s.allocated }

/-- `next_id++`: hand out the current counter value and bump it. -/
def freshId (s : EmitterState) : Nat × EmitterState :=
  (s.next_id, bumpId s)

def pushKernels (s : EmitterState) (ws : List Nat) : EmitterState :=
  { s with spir_v_kernels := s.spir_v_kernels ++ ws }

def pushTypes (s : EmitterState) (ws : List Nat) : EmitterState :=
  { s with spir_v_types := s.spir_v_types ++ ws }

def setId (s : EmitterState) (i : Nat) : EmitterState := { s with id := i }

/-- The first word of an instruction packs (word count including itself,
opcode); cf. `add_instruction`: `((1 + words.size()) << 16) | opcode`. -/
def packInstr (opcode : Nat) (words : List Nat) : List Nat :=
  w32 (((1 + words.length) <<< 16) ||| opcode) :: words

/-- `add_instruction(opcode, words)` (the overload that targets
`spir_v_kernels`). -/
def add_instruction (s : EmitterState) (opcode : Nat) (words : List Nat) : EmitterState :=
  pushKernels s (packInstr opcode words)

/-- `add_instruction(spir_v_types, opcode, words)` (the region-targeted
overload, used only with the types section in this file). -/
def add_instruction_types (s : EmitterState) (opcode : Nat) (words : List Nat) : EmitterState :=
  pushTypes s (packInstr opcode words)

/-- Error-propagating bind for `Except EmitError`, written out so that proofs
can unfold it one step at a time. -/
def ebind {α β : Type} (x : Except EmitError α) (f : α → Except EmitError β) :
    Except EmitError β :=
  match x with
  | Except.error e => Except.error e
  | Except.ok a => f a

@[simp] theorem ebind_ok {α β : Type} (a : α) (f : α → Except EmitError β) :
    ebind (Except.ok a) f = f a := rfl

@[simp] theorem ebind_error {α β : Type} (e : EmitError) (f : α → Except EmitError β) :
    ebind (Except.error e) f = Except.error e := rfl

/-! ## Type interning (`map_type`, `map_pointer_type_local`)

`map_type` recurses at most once, through `t.with_lanes(1)`; we inline that
single recursive call.  `scalar_type_entry` is the lanes-==-1 miss branch of
`map_type`, including its registration `type_map[t] = type_id`. -/

def scalar_type_entry (t : HType) (s : EmitterState) : Except EmitError (Nat × EmitterState) :=
  if t.is_float then
    let (type_id, s) := freshId s
    let s := add_instruction_types s SpvOpTypeFloat [type_id, t.bits]
    Except.ok (type_id, { s with type_map := (t, type_id) :: s.type_map })
  else if t.is_bool then
    let (type_id, s) := freshId s
    let s := add_instruction_types s SpvOpTypeBool [type_id]
    Except.ok (type_id, { s with type_map := (t, type_id) :: s.type_map })
  else if t.is_int_or_uint then
    let (type_id, s) := freshId s
    let s := add_instruction_types s SpvOpTypeInt [type_id, t.bits, 0]
    Except.ok (type_id, { s with type_map := (t, type_id) :: s.type_map })
  else
    Except.error (EmitError.internalError "Unsupported type in Vulkan backend")

def map_type (t : HType) (s : EmitterState) : Except EmitError (Nat × EmitterState) :=
  match alookup s.type_map t with
  | some type_id => Except.ok (type_id, s)
  | none =>
    if t.lanes ≠ 1 then
      ebind
        (match alookup s.type_map (t.with_lanes 1) with
         | some base_id => Except.ok (base_id, s)
         | none => scalar_type_entry (t.with_lanes 1) s)
        (fun r =>
          let base_id := r.1
          let s := r.2
          let (type_id, s) := freshId s
          let s := add_instruction_types s SpvOpTypeVector [type_id, base_id, t.lanes]
          Except.ok (type_id, { s with type_map := (t, type_id) :: s.type_map }))
    else
      scalar_type_entry t s

/-- `map_pointer_type_local`: `pointer_type_map_local[type]` default-constructs
the mapped value to 0, and id 0 is treated as absent. -/
def map_pointer_type_local (t : HType) (s : EmitterState) :
    Except EmitError (Nat × EmitterState) :=
  let ref := (alookup s.pointer_type_map_local t).getD 0
  if ref = 0 then
    ebind (map_type t s) (fun r =>
      let base_type_id := r.1
      let s := r.2
      let (ptr_id, s) := freshId s
      let s := add_instruction_types s SpvOpTypePointer [ptr_id, SpvStorageClassFunction, base_type_id]
      Except.ok (ptr_id, { s with pointer_type_map_local := (t, ptr_id) :: s.pointer_type_map_local }))
  else
    Except.ok (ref, s)

/-! ## Constant interning (`emit_constant`)

The literal's raw bytes are passed as a list (byte `i` of the C++ source
buffer is `data.getD i 0`).  Two faithful details of the C++ worth flagging:

* the interning key is built and looked up in `constant_map`, but on a miss
  the new id is NEVER inserted into `constant_map` (there is no
  `constant_map[key] = constant_id` in the source), and

* the three leading words of the `OpConstant` instruction are pushed onto
  `spir_v_kernels`, while the packed data words of the copy loop are pushed
  onto `spir_v_types` (`spir_v_types.push_back(word)`), and the data pointer
  advances by one byte per word (`data_temp++`, not `data_temp += 4`); the
  bytes of a short final word that `memcpy` does not overwrite are
  uninitialized in C++, modelled here as 0. -/

def constKey (t : HType) (data : List Nat) : List Nat :=
  [t.code.toNat % 256, t.bits % 256, t.lanes % 256, (t.lanes >>> 8) % 256] ++
    (List.range t.bytes).map (fun i => data.getD i 0 % 256)

/-- The word pushed by iteration `i` of the copy loop.  `bytes_copied` before
iteration `i` is `min (4*i) t.bytes` (each earlier iteration copied
`min (remaining) 4` bytes), and the source pointer sits at byte offset `i`
because of the `data_temp++` slip. -/
def dataWord (nbytes : Nat) (data : List Nat) (i : Nat) : Nat :=
  let to_copy := min (nbytes - min (4 * i) nbytes) 4
  (List.range to_copy).foldl (fun acc k => acc + data.getD (i + k) 0 % 256 * 256 ^ k) 0

def emit_constant (t : HType) (data : List Nat) (s : EmitterState) :
    Except EmitError (Nat × EmitterState) :=
  let key := constKey t data
  match alookup s.constant_map key with
  | some cid => Except.ok (cid, s)
  | none =>
    ebind (map_type t s) (fun r =>
      let type_id := r.1
      let s := r.2
      let extra_words := (t.bytes + 3) / 4
      let (constant_id, s) := freshId s
      let s := pushKernels s [w32 (((3 + extra_words) <<< 16) ||| SpvOpConstant), type_id, constant_id]
      let s := pushTypes s ((List.range extra_words).map (fun i => dataWord t.bytes data i))
      Except.ok (constant_id, s))

/-! ## Little-endian byte buffers for immediates -/

/-- The 8-byte little-endian buffer of an `int64_t` (two's complement). -/
def int64Bytes (v : Int) : List Nat :=
  (List.range 8).map (fun i => ((v % (2 ^ 64 : Int)).toNat >>> (8 * i)) % 256)

/-- The 8-byte little-endian buffer of a `uint64_t`. -/
def uint64Bytes (v : Nat) : List Nat :=
  (List.range 8).map (fun i => (v >>> (8 * i)) % 256)

/-! ## The IR fragment the claims are about

We embed the IR node kinds whose visitors the claims exercise.  Node kinds
of the C++ file not embedded here (Cast, Add/Sub/Mul, the comparisons,
Not/And/Or, StringImm, Ramp, Broadcast, Min/Max, and the bitwise/barrier/
reinterpret intrinsic arms of `visit(const Call *)`) are not referenced by
any claim. -/

inductive ForType : Type
  | serial
  | parallel
  | vectorized
  | unrolled
deriving DecidableEq, Repr

inductive CallName : Type
  | if_then_else
  | div_round_to_zero
  | mod_round_to_zero
  | other (name : String)
deriving DecidableEq, Repr

inductive Expr : Type
  | intImm (t : HType) (v : Int)
  | uintImm (t : HType) (v : Nat)
  | floatImm (t : HType) (bytesLE : List Nat)
  | var (t : HType) (name : String)
  | select (condition true_value false_value : Expr)
  | div (a b : Expr)
  | mod (a b : Expr)
  | call (t : HType) (name : CallName) (args : List Expr)
  | shuffle (t : HType) (vectors : List Expr) (indices : List Nat)
  | load (t : HType) (name : String) (index : Expr)
  | letE (name : String) (value body : Expr)

inductive Stmt : Type
  | evaluate (value : Expr)
  | assertStmt (condition message : Expr)
  | producerConsumer (name : String) (is_producer : Bool) (body : Stmt)
  | letStmt (name : String) (value : Expr) (body : Stmt)
  | for_ (name : String) (min extent : Expr) (ftype : ForType) (body : Stmt)
  | ifThenElse (condition : Expr) (then_case else_case : Stmt)
  | store (name : String) (value index : Expr)
  | provide (name : String)
  | allocate (name : String) (t : HType) (body : Stmt)
  | free_ (name : String)
  | realize (name : String)
  | prefetch (name : String)
  | fork (first_child rest : Stmt)
  | acquire (semaphore count : Expr) (body : Stmt)

/-- `op->type` of each node.  In Halide a `Select` node carries the type of
its true value, an arithmetic node the type of its left operand. -/
def Expr.typeOf : Expr → HType
  | .intImm t _ => t
  | .uintImm t _ => t
  | .floatImm t _ => t
  | .var t _ => t
  | .select _ tv _ => tv.typeOf
  | .div a _ => a.typeOf
  | .mod a _ => a.typeOf
  | .call t _ _ => t
  | .shuffle t _ _ => t
  | .load t _ _ => t
  | .letE _ _ body => body.typeOf

/-- Modelled from the spec: `is_zero` lives in IROperator.cpp, which is not
under src/; the spec speaks of a "literal-zero divisor".  A float literal is
zero when its byte pattern is all zero (+0.0). -/
def is_zero : Expr → Bool
  | .intImm _ v => v = 0
  | .uintImm _ v => v = 0
  | .floatImm _ bytes => bytes.all (fun b => b = 0)
  | _ => false

/-- Modelled from the spec: `extract_lane` lives in Deinterleave.h, which is
not under src/; per the spec it yields "the scalar expression for that lane",
modelled as a single-vector shuffle selecting lane `i`.  No claim depends on
its shape. -/
def extract_lane (e : Expr) (i : Nat) : Expr :=
  Expr.shuffle (e.typeOf.with_lanes 1) [e] [i]

/-- Modelled from the spec: `lower_euclidean_div` lives in
CodeGen_Internal.cpp, which is not under src/; the spec says only that
integer division "is rewritten via Euclidean division/modulo identities over
already-supported node kinds, then re-emitted".  No claim depends on the
rewrite, only on the zero-divisor check in `visit(const Div *)` running
before it. -/
def lower_euclidean_div (a b : Expr) : Expr :=
  Expr.call a.typeOf CallName.div_round_to_zero [a, b]

/-- Modelled from the spec: `lower_euclidean_mod`, as `lower_euclidean_div`. -/
def lower_euclidean_mod (a b : Expr) : Expr :=
  Expr.call a.typeOf CallName.mod_round_to_zero [a, b]

/-- Return payload of `emit_if_then_else`: `uint32_t ids[4]` holding
then-result, then-label, else-result, else-label, in that order. -/
structure PhiNodeInputs : Type where
  then_id : Nat
  then_label : Nat
  else_id : Nat
  else_label : Nat
deriving DecidableEq, Repr

def fuelErr : EmitError := EmitError.internalError "fuel exhausted"

def provideMsg : String :=
  "CodeGen_Vulkan_Dev::SPIRVEmitter::visit(const Provide *): Provide encountered during codegen"

def realizeMsg : String :=
  "CodeGen_Vulkan_Dev::SPIRVEmitter::visit(const Realize *): Realize encountered during codegen"

def prefetchMsg : String :=
  "CodeGen_Vulkan_Dev::SPIRVEmitter::visit(const Prefetch *): Prefetch encountered during codegen"

def forkMsg : String :=
  "void CodeGen_Vulkan_Dev::SPIRVEmitter::visit(const Fork *) not supported yet."

def acquireMsg : String :=
  "void CodeGen_Vulkan_Dev::SPIRVEmitter::visit(const Acquire *) not supported yet."

def shuffleMsg : String :=
  "SPIR-V codegen currently only supports shuffles of vector pairs."

/-- The part of `visit(const For *)` between the extent visit and the body
visit: compute `max = min + extent`, declare the loop variable initialized to
`min`, allocate the five labels, emit header (label, loop-merge, branch),
loop-top (label, load, signed-less-equal test over only three operand words
as in the source, conditional branch) and the body label.  The ids the rest
of the visit needs are returned alongside the state. -/
structure ForLoopHead : Type where
  cur_index_id : Nat
  loop_var_id : Nat
  header_label_id : Nat
  continue_label_id : Nat
  merge_label_id : Nat
  state : EmitterState

def forLoopHead (index_type_id index_var_type_id min_id extent_id : Nat)
    (s : EmitterState) : ForLoopHead :=
  let (max_id, s1) := freshId s
  let s1 := add_instruction s1 SpvOpIAdd [index_type_id, max_id, min_id, extent_id]
  let (loop_var_id, s1) := freshId s1
  let s1 := add_instruction s1 SpvOpVariable [index_var_type_id, loop_var_id, min_id]
  let (header_label_id, s1) := freshId s1
  let (loop_top_label_id, s1) := freshId s1
  let (body_label_id, s1) := freshId s1
  let (continue_label_id, s1) := freshId s1
  let (merge_label_id, s1) := freshId s1
  let s1 := add_instruction s1 SpvOpLabel [header_label_id]
  let s1 := add_instruction s1 SpvOpLoopMerge [merge_label_id, continue_label_id, SpvLoopControlMaskNone]
  let s1 := add_instruction s1 SpvOpBranch [loop_top_label_id]
  let s1 := add_instruction s1 SpvOpLabel [loop_top_label_id]
  let (cur_index_id, s1) := freshId s1
  let s1 := add_instruction s1 SpvOpLoad [index_type_id, cur_index_id, loop_var_id]
  let (loop_test_id, s1) := freshId s1
  let s1 := add_instruction s1 SpvOpSLessThanEqual [loop_test_id, cur_index_id, max_id]
  let s1 := add_instruction s1 SpvOpBranchConditional [loop_test_id, body_label_id, merge_label_id]
  let s1 := add_instruction s1 SpvOpLabel [body_label_id]
  ⟨cur_index_id, loop_var_id, header_label_id, continue_label_id, merge_label_id, s1⟩

/-! ## The visitor

A fuel-indexed model of the `IRVisitor` traversal.  The C++ communicates a
node result through the member `id` and fatal `internal_error` /
`user_assert` through process abort; here `id` is a state field and abort is
the `Except.error` case.  The `ScopedBinding` pushed for `Let` / `LetStmt` /
`For` bodies is popped by restoring the saved table (all bindings in this
file are scope-balanced). -/

mutual

def visitE : Nat → Expr → EmitterState → Except EmitError EmitterState
  | 0, _, _ => Except.error fuelErr
  | n + 1, e, s =>
    match e with
    | .intImm t v =>
      ebind (emit_constant t (int64Bytes v) s) (fun r => Except.ok (setId r.2 r.1))
    | .uintImm t v =>
      ebind (emit_constant t (uint64Bytes v) s) (fun r => Except.ok (setId r.2 r.1))
    | .floatImm t bytes =>
      ebind (emit_constant t bytes s) (fun r => Except.ok (setId r.2 r.1))
    | .var _ name =>
      match alookup s.symbol_table name with
      | some i => Except.ok (setId s i)
      | none => Except.error (EmitError.internalError "Symbol not found")
    | .select c tv fv =>
      ebind (map_type (Expr.typeOf tv) s) (fun r0 =>
      ebind (visitE n c r0.2) (fun s1 =>
      ebind (visitE n tv s1) (fun s2 =>
      ebind (visitE n fv s2) (fun s3 =>
        let (rid, s4) := freshId s3
        Except.ok (setId (add_instruction s4 SpvOpSelect [r0.1, rid, s1.id, s2.id, s3.id]) rid)))))
    | .div a b =>
      if is_zero b then
        Except.error (EmitError.userError "Division by constant zero in expression")
      else if (Expr.typeOf a).is_float then
        visit_binop n (Expr.typeOf a) a b SpvOpFDiv s
      else
        visitE n (lower_euclidean_div a b) s
    | .mod a b =>
      if (Expr.typeOf a).is_float then
        visit_binop n (Expr.typeOf a) a b SpvOpFMod s
      else
        visitE n (lower_euclidean_mod a b) s
    | .call t cname args =>
      match cname with
      | CallName.if_then_else =>
        if t.is_vector then
          scalarize n (Expr.call t cname args) s
        else
          match args with
          | [c, tv, fv] =>
            ebind (emit_if_then_elseE n c tv fv s) (fun r =>
            ebind (map_type t r.2) (fun r2 =>
              let (rid, s2) := freshId r2.2
              let s2 := pushKernels s2
                ([w32 ((7 <<< 16) ||| SpvOpPhi), r2.1, rid] ++
                 [r.1.then_id, r.1.then_label, r.1.else_id, r.1.else_label])
              Except.ok (setId s2 rid)))
          | _ => Except.error (EmitError.internalError "if_then_else expects 3 arguments")
      | CallName.div_round_to_zero =>
        match args with
        | [a, b] =>
          if t.is_int then visit_binop n t a b SpvOpSDiv s
          else if t.is_uint then visit_binop n t a b SpvOpUDiv s
          else Except.error (EmitError.internalError "div_round_to_zero of non-integer type")
        | _ => Except.error (EmitError.internalError "div_round_to_zero expects 2 arguments")
      | CallName.mod_round_to_zero =>
        match args with
        | [a, b] =>
          if t.is_int then visit_binop n t a b SpvOpSMod s
          else if t.is_uint then visit_binop n t a b SpvOpUMod s
          else Except.error (EmitError.internalError "mod_round_to_zero of non-integer type")
        | _ => Except.error (EmitError.internalError "mod_round_to_zero expects 2 arguments")
      | CallName.other _ => Except.ok s
    | .shuffle t vectors indices =>
      match vectors with
      | [v0, v1] =>
        ebind (map_type t s) (fun r =>
        ebind (visitE n v0 r.2) (fun s1 =>
        ebind (visitE n v1 s1) (fun s2 =>
          let (rid, s3) := freshId s2
          let s3 := pushKernels s3
            ([w32 (((5 + indices.length) <<< 16) ||| SpvOpPhi), r.1, rid, s1.id, s2.id] ++ indices)
          Except.ok (setId s3 rid))))
      | _ => Except.error (EmitError.internalError shuffleMsg)
    | .load _ _ _ => Except.ok s
    | .letE name value body =>
      ebind (visitE n value s) (fun s1 =>
      ebind (visitE n body { s1 with symbol_table := (name, s1.id) :: s1.symbol_table }) (fun s2 =>
        Except.ok { s2 with symbol_table := s1.symbol_table }))

def visitS : Nat → Stmt → EmitterState → Except EmitError EmitterState
  | 0, _, _ => Except.error fuelErr
  | n + 1, st, s =>
    match st with
    | .evaluate e => visitE n e s
    | .assertStmt _ _ => Except.ok s
    | .producerConsumer _ _ _ => Except.ok s
    | .letStmt name value body =>
      ebind (visitE n value s) (fun s1 =>
      ebind (visitS n body { s1 with symbol_table := (name, s1.id) :: s1.symbol_table }) (fun s2 =>
        Except.ok (setId { s2 with symbol_table := s1.symbol_table } 0xffffffff)))
    | .for_ name min extent ftype body =>
      if ftype ≠ ForType.serial then
        Except.error (EmitError.internalError "CodeGen_Vulkan_Dev::SPIRVEmitter::visit unhandled For type")
      else
        ebind (map_type int32T s) (fun rA =>
        ebind (map_pointer_type_local int32T rA.2) (fun rB =>
        ebind (visitE n min rB.2) (fun sMin =>
        ebind (visitE n extent sMin) (fun sExt =>
          let fh := forLoopHead rA.1 rB.1 sMin.id sExt.id sExt
          ebind (visitS n body
            { fh.state with symbol_table := (name, fh.cur_index_id) :: fh.state.symbol_table })
            (fun s2 =>
              let s3 := { s2 with symbol_table := fh.state.symbol_table }
              let s3 := add_instruction s3 SpvOpBranch [fh.continue_label_id]
              let s3 := add_instruction s3 SpvOpLabel [fh.continue_label_id]
              let (next_index_id, s3) := freshId s3
              ebind (emit_constant int32T [1, 0, 0, 0] s3) (fun rC =>
                let s4 := add_instruction rC.2 SpvOpIAdd [rA.1, next_index_id, fh.cur_index_id, rC.1]
                let s4 := add_instruction s4 SpvOpStore [rA.1, next_index_id, fh.loop_var_id]
                let s4 := add_instruction s4 SpvOpBranch [fh.header_label_id]
                let s4 := add_instruction s4 SpvOpLabel [fh.merge_label_id]
                Except.ok s4))))))
    | .ifThenElse c then_case else_case =>
      ebind (emit_if_then_elseS n c then_case else_case s) (fun r => Except.ok r.2)
    | .store _ _ _ => Except.ok s
    | .provide _ => Except.error (EmitError.internalError provideMsg)
    | .allocate _ _ _ => Except.ok s
    | .free_ _ => Except.ok s
    | .realize _ => Except.error (EmitError.internalError realizeMsg)
    | .prefetch _ => Except.error (EmitError.internalError prefetchMsg)
    | .fork _ _ => Except.error (EmitError.internalError forkMsg)
    | .acquire _ _ _ => Except.error (EmitError.internalError acquireMsg)

def visit_binop : Nat → HType → Expr → Expr → Nat → EmitterState → Except EmitError EmitterState
  | 0, _, _, _, _, _ => Except.error fuelErr
  | n + 1, t, a, b, opcode, s =>
    ebind (map_type t s) (fun r =>
    ebind (visitE n a r.2) (fun s1 =>
    ebind (visitE n b s1) (fun s2 =>
      let (rid, s3) := freshId s2
      Except.ok (setId (add_instruction s3 opcode [r.1, rid, s1.id, s2.id]) rid))))

def emit_if_then_elseE :
    Nat → Expr → Expr → Expr → EmitterState → Except EmitError (PhiNodeInputs × EmitterState)
  | 0, _, _, _, _ => Except.error fuelErr
  | n + 1, condition, then_case, else_case, s =>
    ebind (visitE n condition s) (fun s0 =>
      let cond_id := s0.id
      let (then_label_id, s1) := freshId s0
      let (else_label_id, s1) := freshId s1
      let (merge_label_id, s1) := freshId s1
      let s1 := add_instruction s1 SpvOpBranchConditional [cond_id, then_label_id, else_label_id]
      let s1 := add_instruction s1 SpvOpLabel [then_label_id]
      ebind (visitE n then_case s1) (fun s2 =>
        let then_id := s2.id
        let s3 := add_instruction s2 SpvOpBranch [merge_label_id]
        let s3 := add_instruction s3 SpvOpLabel [else_label_id]
        ebind (visitE n else_case s3) (fun s4 =>
          let else_id := s4.id
          let s5 := add_instruction s4 SpvOpLabel [merge_label_id]
          Except.ok (⟨then_id, then_label_id, else_id, else_label_id⟩, s5))))

def emit_if_then_elseS :
    Nat → Expr → Stmt → Stmt → EmitterState → Except EmitError (PhiNodeInputs × EmitterState)
  | 0, _, _, _, _ => Except.error fuelErr
  | n + 1, condition, then_case, else_case, s =>
    ebind (visitE n condition s) (fun s0 =>
      let cond_id := s0.id
      let (then_label_id, s1) := freshId s0
      let (else_label_id, s1) := freshId s1
      let (merge_label_id, s1) := freshId s1
      let s1 := add_instruction s1 SpvOpBranchConditional [cond_id, then_label_id, else_label_id]
      let s1 := add_instruction s1 SpvOpLabel [then_label_id]
      ebind (visitS n then_case s1) (fun s2 =>
        let then_id := s2.id
        let s3 := add_instruction s2 SpvOpBranch [merge_label_id]
        let s3 := add_instruction s3 SpvOpLabel [else_label_id]
        ebind (visitS n else_case s3) (fun s4 =>
          let else_id := s4.id
          let s5 := add_instruction s4 SpvOpLabel [merge_label_id]
          Except.ok (⟨then_id, then_label_id, else_id, else_label_id⟩, s5))))

def scalarize : Nat → Expr → EmitterState → Except EmitError EmitterState
  | 0, _, _ => Except.error fuelErr
  | n + 1, e, s =>
    if ¬ (Expr.typeOf e).is_vector then
      Except.error (EmitError.internalError
        "CodeGen_Vulkan_Dev::SPIRVEmitter::scalarize must be called with an expression of vector type.")
    else
      ebind (map_type (Expr.typeOf e) s) (fun r =>
        let (result_id, s1) := freshId r.2
        let s1 := add_instruction s1 SpvOpConstantNull [r.1, result_id]
        scalarize_loop n e r.1 (Expr.typeOf e).lanes 0 result_id s1)

def scalarize_loop :
    Nat → Expr → Nat → Nat → Nat → Nat → EmitterState → Except EmitError EmitterState
  | 0, _, _, _, _, _, _ => Except.error fuelErr
  | n + 1, e, type_id, remaining, i, result_id, s =>
    match remaining with
    | 0 => Except.ok (setId s result_id)
    | r + 1 =>
      ebind (visitE n (extract_lane e i) s) (fun s1 =>
        let (composite_vec, s2) := freshId s1
        let s2 := add_instruction s2 SpvOpVectorInsertDynamic [type_id, composite_vec, i, result_id, s1.id]
        scalarize_loop n e type_id r (i + 1) composite_vec s2)

end

/-! ## Module assembly (`init_module`, `add_kernel`, `compile_to_src`)

The C++ member initializer for `next_id` is in the header file (not under
src/), so the initial counter value is a parameter `next0` here. -/

def initialState (next0 : Nat) : EmitterState :=
  { next_id := next0, id := 0, spir_v_header := [], spir_v_entrypoints := [],
    spir_v_types := [], spir_v_kernels := [], type_map := [],
    pointer_type_map_local := [], constant_map := [], symbol_table := [],
    allocated := [] }

/-- `init_module`: push the 5-word header (magic, version, source-unknown,
bound placeholder, reserved). -/
def init_module (s : EmitterState) : EmitterState :=
  { s with spir_v_header :=
      s.spir_v_header ++ [SpvMagicNumber, SpvVersion, SpvSourceLanguageUnknown, 0, 0] }

/-- `add_kernel`: the statement tree accepts the emitter. -/
def add_kernel (fuel : Nat) (stmt : Stmt) (s : EmitterState) : Except EmitError EmitterState :=
  visitS fuel stmt s

def run_kernels (fuel : Nat) : List Stmt → EmitterState → Except EmitError EmitterState
  | [], s => Except.ok s
  | k :: ks, s => ebind (add_kernel fuel k s) (run_kernels fuel ks)

/-- `compile_to_src`: patch `spir_v_header[3]` with `next_id`, then return
header, entry points, types/constants and kernels concatenated in that
order.  The C++ serializes the words to `char`s four bytes apiece, order
preserved; we stay at word granularity. -/
def compile_to_src (s : EmitterState) : List Nat :=
  s.spir_v_header.set 3 s.next_id ++ s.spir_v_entrypoints ++ s.spir_v_types ++ s.spir_v_kernels

/-- One module-compilation session: `init_module`, a list of `add_kernel`
calls, `compile_to_src`. -/
def runSession (fuel next0 : Nat) (kernels : List Stmt) :
    Except EmitError (List Nat × EmitterState) :=
  ebind (run_kernels fuel kernels (init_module (initialState next0)))
    (fun s => Except.ok (compile_to_src s, s))

/-- The emitter state every concrete evaluation below starts from: a fresh
session whose first identifier is 1 (SPIR-V ids are positive). -/
def sessionStart : EmitterState := init_module (initialState 1)

/-- Number of words in a stream whose low 16 bits are the `OpConstant`
opcode; on the concrete streams below only instruction leading words have
value 43 in their low half-word. -/
def countOpConstant (ws : List Nat) : Nat :=
  (ws.filter (fun w => w % 65536 = SpvOpConstant)).length

/-- The branch taken by `OpBranchConditional test true_label false_label`. -/
def condBranchTarget (test : Bool) (true_label false_label : Nat) : Nat :=
  if test then true_label else false_label

/-- A serial loop over the empty range [0, 0): min = 0, extent = 0.  The body
is an `AssertStmt`, whose visit emits nothing. -/
def loop00 : Stmt :=
  Stmt.for_ "i" (Expr.intImm int32T 0) (Expr.intImm int32T 0) ForType.serial
    (Stmt.assertStmt (Expr.uintImm bool1T 1) (Expr.intImm int32T 0))

/-- C1: the constant interner is not idempotent and not deduplicating.
`emit_constant` looks the key up in `constant_map` but on a miss never
registers the new id (the source has no insertion into `constant_map`), so
interning (Int 32, bytes of literal 7) twice in one fresh session misses
twice: it returns id 2 then id 3, and the kernels stream holds one
`OpConstant` leading word after the first call and two after the second —
refuting "returns the same identifier both times and emits the
constant-defining instruction exactly once". -/
theorem c1_emit_constant_not_idempotent :
    ebind (emit_constant int32T (int64Bytes 7) sessionStart) (fun r1 =>
      ebind (emit_constant int32T (int64Bytes 7) r1.2) (fun r2 =>
        Except.ok (r1.1, r2.1, countOpConstant r1.2.spir_v_kernels,
          countOpConstant r2.2.spir_v_kernels, r2.2.constant_map)))
      = Except.ok (2, 3, 1, 2, []) ∧ (2 : Nat) ≠ 3 :=
  ⟨rfl, by decide⟩

/-- C2: the constant-defining instruction is not self-consistent on its own
stream.  For (Int 32, literal 7) in a fresh session the leading word
`262187 = (4 <<< 16) ||| 43` declares `3 + ceil(4/4) = 4` words, but only 3
words (`[262187, 1, 2]`) are appended to `spir_v_kernels`; the single packed
data word `7` is pushed onto `spir_v_types` instead (the copy loop does
`spir_v_types.push_back(word)`), where it trails the `OpTypeInt` instruction
`[262165, 1, 32, 0]` unaccounted for by any leading word of that stream. -/
theorem c2_constant_instruction_word_count_mismatch :
    ebind (emit_constant int32T (int64Bytes 7) sessionStart) (fun r =>
      Except.ok (r.2.spir_v_kernels, r.2.spir_v_types))
      = Except.ok ([262187, 1, 2], [262165, 1, 32, 0, 7]) ∧
    262187 >>> 16 = 4 ∧ 262187 % 65536 = SpvOpConstant ∧
    3 + (int32T.bytes + 3) / 4 = 4 ∧
    ([262187, 1, 2] : List Nat).length = 3 :=
  ⟨rfl, by decide, by decide, by decide, by decide⟩

/-- C3: for the serial loop over [0, 0) the generated loop-top comparison
succeeds, so the conditional branch selects the body label, not the merge
label.  In the emitted kernel stream below, ids are: 3/4 the min/extent
constants (both defining literal 0, see the two zero data words in the types
stream), 5 the `OpIAdd` max (runtime value 0 + 0 = 0), 6 the loop variable
initialized to id 3 (value 0), 9/11 the body/merge labels, 12 the loaded
current value (0 on first evaluation), 13 the `OpSLessThanEqual` test
`current ≤ max`.  The instruction `[262394, 13, 9, 11]` is
`OpBranchConditional test body merge`; since the signed comparison 0 ≤ 0
holds, the branch at loop-top selects label 9 (the body), refuting "the
comparison fails on the first evaluation, so the conditional branch selects
the merge label". -/
theorem c3_empty_range_loop_branches_to_body :
    ebind (visitS 8 loop00 sessionStart) (fun s =>
      Except.ok (s.spir_v_kernels, s.spir_v_types))
      = Except.ok
        ([262187, 1, 3, 262187, 1, 4, 327808, 1, 5, 3, 4, 262203, 2, 6, 3,
          131320, 7, 262390, 11, 10, 0, 131321, 8, 131320, 8, 262205, 1, 12, 6,
          262323, 13, 12, 5, 262394, 13, 9, 11, 131320, 9, 131321, 10, 131320, 10,
          262187, 1, 15, 327808, 1, 14, 12, 15, 262206, 1, 14, 6, 131321, 7, 131320, 11],
         [262165, 1, 32, 0, 262176, 2, 7, 1, 0, 0, 1]) ∧
    262323 % 65536 = SpvOpSLessThanEqual ∧
    262394 % 65536 = SpvOpBranchConditional ∧
    decide ((0 : Int) + 0 ≤ 0) = true ∧
    condBranchTarget (decide ((0 : Int) + 0 ≤ 0)) 9 11 = 9 ∧
    (9 : Nat) ≠ 11 :=
  ⟨rfl, by decide, by decide, by decide, by decide, by decide⟩

def int32x4T : HType := ⟨TypeCode.tInt, 32, 4⟩

/-- The 8-byte buffer of the C++ `double` 1.0 (a `FloatImm` stores a double;
`emit_constant` then reads the first `t.bytes()` bytes of it). -/
def floatOneImm : Expr := Expr.floatImm float32T [0, 0, 0, 0, 0, 0, 240, 63]

def floatZeroImm : Expr := Expr.floatImm float32T [0, 0, 0, 0, 0, 0, 0, 0]

/-- C6 (counterexample): visiting a memory Load or Store node returns
normally with the state untouched — `visit(const Load *)` has its whole body
preprocessed away and `visit(const Store *)` is empty — contradicting "none
of these visits returns normally or silently emits nothing". -/
theorem c6_load_store_return_normally :
    visitE 1 (Expr.load int32T "input" (Expr.intImm int32T 0)) sessionStart =
      Except.ok sessionStart ∧
    visitS 1 (Stmt.store "output" (Expr.intImm int32T 0) (Expr.intImm int32T 0)) sessionStart =
      Except.ok sessionStart :=
  ⟨rfl, rfl⟩

/-- C6 (amended): visiting Provide, Realize, Prefetch, Fork or Acquire is a
fatal InternalError in every state, while visiting a memory Load or Store
returns normally and emits nothing (silent no-op, state unchanged). -/
theorem c6_fatal_nodes_vs_silent_load_store (n : Nat) (s : EmitterState) (name : String)
    (t : HType) (index value sem cnt : Expr) (b stA stB : Stmt) :
    visitS (n + 1) (Stmt.provide name) s = Except.error (EmitError.internalError provideMsg) ∧
    visitS (n + 1) (Stmt.realize name) s = Except.error (EmitError.internalError realizeMsg) ∧
    visitS (n + 1) (Stmt.prefetch name) s = Except.error (EmitError.internalError prefetchMsg) ∧
    visitS (n + 1) (Stmt.fork stA stB) s = Except.error (EmitError.internalError forkMsg) ∧
    visitS (n + 1) (Stmt.acquire sem cnt b) s = Except.error (EmitError.internalError acquireMsg) ∧
    visitE (n + 1) (Expr.load t name index) s = Except.ok s ∧
    visitS (n + 1) (Stmt.store name value index) s = Except.ok s :=
  ⟨rfl, rfl, rfl, rfl, rfl, rfl, rfl⟩

/-- C7 (counterexample): a float Mod whose divisor is the literal 0.0 is
lowered with no zero-divisor check — `visit(const Mod *)` has no
`user_assert` — and happily emits the `OpFMod` instruction
`[327821, 1, 4, 2, 3]` (`327821 = (5 <<< 16) ||| 141`), contradicting "for
every division or modulo node whose divisor is the literal constant zero,
lowering aborts with a usage-error diagnostic before any instruction for
that node is emitted". -/
theorem c7_mod_zero_divisor_emits_fmod :
    ebind (visitE 3 (Expr.mod floatOneImm floatZeroImm) sessionStart)
      (fun s => Except.ok s.spir_v_kernels) =
      Except.ok [262187, 1, 2, 262187, 1, 3, 327821, 1, 4, 2, 3] ∧
    is_zero floatZeroImm = true ∧
    327821 % 65536 = SpvOpFMod :=
  ⟨rfl, rfl, by decide⟩

/-- C7 (amended): a Div node whose divisor is a literal zero aborts with a
usage error before any instruction for it is emitted — the `user_assert`
runs first, so the visit fails in every state without touching it — while
Mod nodes carry no such check. -/
theorem c7_div_zero_divisor_user_error (n : Nat) (a b : Expr) (s : EmitterState)
    (h : is_zero b = true) :
    visitE (n + 1) (Expr.div a b) s =
      Except.error (EmitError.userError "Division by constant zero in expression") := by
  simp [visitE, h]

/-- Witness for C7 (amended) at `1 / 0` over Int 32 in a fresh session. -/
theorem c7_div_zero_divisor_user_error_witness :
    is_zero (Expr.intImm int32T 0) = true ∧
    visitE 1 (Expr.div (Expr.intImm int32T 1) (Expr.intImm int32T 0)) sessionStart =
      Except.error (EmitError.userError "Division by constant zero in expression") :=
  ⟨rfl, c7_div_zero_divisor_user_error 0 (Expr.intImm int32T 1) (Expr.intImm int32T 0)
    sessionStart rfl⟩

/-- C9: visiting a Shuffle aborts with the fatal internal arity error for
every source-vector count other than exactly 2 — zero, one, or three and
more sources alike — while a two-source shuffle proceeds to emit its
instruction (whose opcode the code, faithfully reproduced, packs as
`SpvOpPhi`). -/
theorem c9_shuffle_arity_exactly_two (n : Nat) (t : HType) (vectors : List Expr)
    (indices : List Nat) (v0 v1 : Expr) (s s0 s1 s2 : EmitterState) (tid : Nat)
    (hlen : vectors.length ≠ 2)
    (hm : map_type t s = Except.ok (tid, s0))
    (h0 : visitE n v0 s0 = Except.ok s1)
    (h1 : visitE n v1 s1 = Except.ok s2) :
    visitE (n + 1) (Expr.shuffle t vectors indices) s =
      Except.error (EmitError.internalError shuffleMsg) ∧
    visitE (n + 1) (Expr.shuffle t [v0, v1] indices) s =
      Except.ok (setId (pushKernels (freshId s2).2
        ([w32 (((5 + indices.length) <<< 16) ||| SpvOpPhi), tid, s2.next_id, s1.id, s2.id]
          ++ indices)) s2.next_id) := by
  constructor
  · rcases vectors with _ | ⟨a, _ | ⟨b, _ | ⟨cc, tl⟩⟩⟩
    · rfl
    · rfl
    · exact absurd rfl hlen
    · rfl
  · simp [visitE, hm, h0, h1, freshId]

/-- Witness for C9: a one-source shuffle of an int32x4 in a fresh session is
the fatal arity error; the two-source shuffle of the same shape emits its
instruction words. -/
theorem c9_shuffle_arity_witness :
    visitE 2 (Expr.shuffle int32x4T [Expr.intImm int32T 1] [0, 1, 2, 3]) sessionStart =
      Except.error (EmitError.internalError shuffleMsg) ∧
    ∃ sres : EmitterState,
      visitE 2 (Expr.shuffle int32x4T [Expr.intImm int32T 1, Expr.intImm int32T 2]
        [0, 1, 2, 3]) sessionStart = Except.ok sres ∧
      sres.spir_v_kernels = [262187, 1, 3, 262187, 1, 4, 590069, 2, 5, 3, 4, 0, 1, 2, 3] := by
  have h := c9_shuffle_arity_exactly_two 1 int32x4T [Expr.intImm int32T 1] [0, 1, 2, 3]
    (Expr.intImm int32T 1) (Expr.intImm int32T 2) sessionStart _ _ _ 2 (by decide) rfl rfl rfl
  exact ⟨h.1, ⟨_, h.2, rfl⟩⟩

/-- C10: visiting an AssertStmt, Allocate, Free or ProducerConsumer node
returns the state entirely unchanged: no words on any section stream, no
identifier allocated, interning tables and symbol table untouched; the
ProducerConsumer (and Allocate) visit does not recurse, so a statement tree
nested under it is dropped from the output. -/
theorem c10_silent_stmts_leave_state_unchanged (n : Nat) (s : EmitterState)
    (c m : Expr) (name : String) (isp : Bool) (b1 b2 : Stmt) (t : HType) :
    visitS (n + 1) (Stmt.assertStmt c m) s = Except.ok s ∧
    visitS (n + 1) (Stmt.producerConsumer name isp b1) s = Except.ok s ∧
    visitS (n + 1) (Stmt.allocate name t b2) s = Except.ok s ∧
    visitS (n + 1) (Stmt.free_ name) s = Except.ok s :=
  ⟨rfl, rfl, rfl, rfl⟩

/-- A scalar (lanes = 1) Select node over int32 values. -/
def scalarSelect : Expr :=
  Expr.select (Expr.uintImm bool1T 1) (Expr.intImm int32T 1) (Expr.intImm int32T 2)

/-- A statement whose visit provably emits nothing (cf. C10). -/
def assertNop : Stmt := Stmt.assertStmt (Expr.uintImm bool1T 1) (Expr.intImm int32T 0)

/-- C4 (counterexample): the scalar Select above is not lowered through the
if/else path plus a phi: its emitted kernel words are the three operand
constants followed by one `OpSelect` instruction `[393385, 1, 6, 3, 4, 5]`
(`393385 = (6 <<< 16) ||| 169`), and no word of the stream carries the
`OpPhi` or `OpBranchConditional` opcode in its low half-word. -/
theorem c4_scalar_select_emits_opselect_not_phi :
    ebind (visitE 2 scalarSelect sessionStart) (fun s => Except.ok s.spir_v_kernels)
      = Except.ok [262187, 2, 3, 262187, 1, 4, 262187, 1, 5, 393385, 1, 6, 3, 4, 5] ∧
    (Expr.typeOf scalarSelect).lanes = 1 ∧
    393385 % 65536 = SpvOpSelect ∧
    ([262187, 2, 3, 262187, 1, 4, 262187, 1, 5, 393385, 1, 6, 3, 4, 5] : List Nat).all
      (fun w => (w % 65536 != SpvOpPhi) && (w % 65536 != SpvOpBranchConditional)) = true :=
  ⟨rfl, rfl, by decide, by decide⟩

/-- C4 (amended): every Select node — scalar and vector alike — is lowered
to the sub-emissions of its condition, true value and false value followed
by exactly one `OpSelect` instruction whose operands are their three result
ids; no phi and no scalarization take part.  (The if/else-plus-phi scalar
path and the scalarization vector path belong to the `if_then_else`
intrinsic call, cf. C5.) -/
theorem c4_select_lowering (n : Nat) (c tv fv : Expr) (s s0 s1 s2 s3 : EmitterState) (tid : Nat)
    (hm : map_type (Expr.typeOf tv) s = Except.ok (tid, s0))
    (hc : visitE n c s0 = Except.ok s1)
    (ht : visitE n tv s1 = Except.ok s2)
    (hf : visitE n fv s2 = Except.ok s3) :
    visitE (n + 1) (Expr.select c tv fv) s =
      Except.ok (setId (add_instruction (freshId s3).2 SpvOpSelect
        [tid, s3.next_id, s1.id, s2.id, s3.id]) s3.next_id) := by
  simp [visitE, hm, hc, ht, hf, freshId]

/-- Witness for C4 (amended) at the concrete scalar Select of the
counterexample. -/
theorem c4_select_lowering_witness :
    ∃ sres : EmitterState,
      visitE 2 scalarSelect sessionStart = Except.ok sres ∧
      sres.spir_v_kernels = [262187, 2, 3, 262187, 1, 4, 262187, 1, 5, 393385, 1, 6, 3, 4, 5] := by
  have h := c4_select_lowering 1 (Expr.uintImm bool1T 1) (Expr.intImm int32T 1)
    (Expr.intImm int32T 2) sessionStart _ _ _ _ 1 rfl rfl rfl rfl
  exact ⟨_, h, rfl⟩

/-- The state at which the then-branch of `emit_if_then_else` starts: the
condition has been visited (ending in `s0`, whose `id` is the condition
result), the then/else/merge labels `s0.next_id`, `s0.next_id + 1`,
`s0.next_id + 2` have been allocated, and the `OpBranchConditional` and
then-`OpLabel` instructions appended. -/
def ifSkeletonThen (s0 : EmitterState) : EmitterState :=
  add_instruction (add_instruction (freshId (freshId (freshId s0).2).2).2
    SpvOpBranchConditional [s0.id, s0.next_id, s0.next_id + 1])
    SpvOpLabel [s0.next_id]

/-- The state at which the else-branch of `emit_if_then_else` starts: the
then-branch finished in `s2`, then the branch-to-merge and else-`OpLabel`
instructions were appended. -/
def ifSkeletonElse (s0 s2 : EmitterState) : EmitterState :=
  add_instruction (add_instruction s2 SpvOpBranch [s0.next_id + 2]) SpvOpLabel [s0.next_id + 1]

/-- C5: for the value-producing scalar `if_then_else` form, the phi
instruction synthesized at the merge point carries exactly two
(value, label) operand pairs, namely (then-branch result id, then-branch
label) followed by (else-branch result id, else-branch label), in that
order: here `s2.id` is the result of the then branch, `s0.next_id` the
then label, `s4.id` the result of the else branch, `s0.next_id + 1` the
else label, and the phi operand words are `[s2.id, s0.next_id, s4.id,
s0.next_id + 1]`.  The statement form runs the same skeleton and appends
nothing after the merge label — no phi. -/
theorem c5_phi_operand_pairs (n : Nat) (t : HType) (c tv fv : Expr) (ts es : Stmt)
    (s s0 s2 s4 s2s s4s s6 : EmitterState) (tid : Nat)
    (hscalar : t.is_vector = false)
    (hc : visitE n c s = Except.ok s0)
    (ht : visitE n tv (ifSkeletonThen s0) = Except.ok s2)
    (hf : visitE n fv (ifSkeletonElse s0 s2) = Except.ok s4)
    (hm : map_type t (add_instruction s4 SpvOpLabel [s0.next_id + 2]) = Except.ok (tid, s6))
    (hts : visitS n ts (ifSkeletonThen s0) = Except.ok s2s)
    (hes : visitS n es (ifSkeletonElse s0 s2s) = Except.ok s4s) :
    emit_if_then_elseE (n + 1) c tv fv s =
      Except.ok (⟨s2.id, s0.next_id, s4.id, s0.next_id + 1⟩,
        add_instruction s4 SpvOpLabel [s0.next_id + 2]) ∧
    visitE (n + 1 + 1) (Expr.call t CallName.if_then_else [c, tv, fv]) s =
      Except.ok (setId (pushKernels (freshId s6).2
        ([w32 ((7 <<< 16) ||| SpvOpPhi), tid, s6.next_id] ++
         [s2.id, s0.next_id, s4.id, s0.next_id + 1])) s6.next_id) ∧
    visitS (n + 1 + 1) (Stmt.ifThenElse c ts es) s =
      Except.ok (add_instruction s4s SpvOpLabel [s0.next_id + 2]) := by
  simp only [ifSkeletonThen, ifSkeletonElse, freshId, bumpId, add_instruction, pushKernels,
    packInstr] at ht hf hts hes hm
  refine ⟨?_, ?_, ?_⟩
  · simp only [emit_if_then_elseE, hc, ebind_ok, freshId, bumpId, add_instruction, pushKernels,
      packInstr, ht, hf]
  · simp only [visitE, hscalar, Bool.false_eq_true, if_false, emit_if_then_elseE, hc,
      ebind_ok, freshId, bumpId, add_instruction, pushKernels, packInstr, ht, hf, hm, setId]
  · simp only [visitS, emit_if_then_elseS, hc, ebind_ok, freshId, bumpId, add_instruction,
      pushKernels, packInstr, hts, hes]

/-- Witness for C5 at `if_then_else(true, 1, 2)` over Int 32 in a fresh
session: the phi inputs are (then-result 7, then-label 3, else-result 8,
else-label 4); the value form ends in the phi instruction
`[458997, 6, 9, 7, 3, 8, 4]` (`458997 = (7 <<< 16) ||| 245`) carrying
exactly those pairs in order; the statement form's stream has no phi. -/
theorem c5_phi_operand_pairs_witness :
    ∃ (pin : PhiNodeInputs) (sA sB sC : EmitterState),
      emit_if_then_elseE 2 (Expr.uintImm bool1T 1) (Expr.intImm int32T 1) (Expr.intImm int32T 2)
        sessionStart = Except.ok (pin, sA) ∧
      visitE 3 (Expr.call int32T CallName.if_then_else
        [Expr.uintImm bool1T 1, Expr.intImm int32T 1, Expr.intImm int32T 2]) sessionStart =
        Except.ok sB ∧
      visitS 3 (Stmt.ifThenElse (Expr.uintImm bool1T 1) assertNop assertNop) sessionStart =
        Except.ok sC ∧
      pin = ⟨7, 3, 8, 4⟩ ∧
      sB.spir_v_kernels = [262187, 1, 2, 262394, 2, 3, 4, 131320, 3, 262187, 6, 7, 131321, 5,
        131320, 4, 262187, 6, 8, 131320, 5, 458997, 6, 9, 7, 3, 8, 4] ∧
      sC.spir_v_kernels = [262187, 1, 2, 262394, 2, 3, 4, 131320, 3, 131321, 5, 131320, 4,
        131320, 5] := by
  have h := c5_phi_operand_pairs 1 int32T (Expr.uintImm bool1T 1) (Expr.intImm int32T 1)
    (Expr.intImm int32T 2) assertNop assertNop sessionStart _ _ _ _ _ _ 6
    rfl rfl rfl rfl rfl rfl rfl
  exact ⟨_, _, _, _, h.1, h.2.1, h.2.2, rfl, rfl, rfl⟩

/-! ## C8: every identifier allocated in a session is below the patched bound

`IdInv` says all recorded allocations are below the counter and the most
recent one (the head of the ghost list) is exactly `next_id - 1`; hence the
head is the highest allocated identifier and `next_id` is one past it.
`StepOk s s'` relates a pre- and post-state of any visit: the header words
are untouched and `IdInv` is transported. -/

def IdInv (s : EmitterState) : Prop :=
  (∀ a ∈ s.allocated, a < s.next_id) ∧
  (s.allocated = [] ∨ s.allocated.head? = some (s.next_id - 1))

def StepOk (s s' : EmitterState) : Prop :=
  s'.spir_v_header = s.spir_v_header ∧ (IdInv s → IdInv s')

theorem StepOk_rfl (s : EmitterState) : StepOk s s := ⟨rfl, id⟩

theorem StepOk_trans {a b c : EmitterState} (h1 : StepOk a b) (h2 : StepOk b c) :
    StepOk a c :=
  ⟨h2.1.trans h1.1, fun hi => h2.2 (h1.2 hi)⟩

/-- A step that allocates nothing: header, counter and ghost list unchanged. -/
theorem StepOk_same {s s' : EmitterState}
    (hh : s'.spir_v_header = s.spir_v_header)
    (hn : s'.next_id = s.next_id) (ha : s'.allocated = s.allocated) : StepOk s s' := by
  refine ⟨hh, ?_⟩
  rintro ⟨h1, h2⟩
  simp only [IdInv, hn, ha]
  exact ⟨h1, h2⟩

/-- A step that allocates exactly one identifier, the pre-state counter. -/
theorem StepOk_alloc {s s' : EmitterState}
    (hh : s'.spir_v_header = s.spir_v_header)
    (hn : s'.next_id = s.next_id + 1) (ha : s'.allocated = s.next_id :: s.allocated) :
    StepOk s s' := by
  refine ⟨hh, ?_⟩
  rintro ⟨h1, _⟩
  simp only [IdInv, hn, ha]
  constructor
  · intro a haa
    rcases List.mem_cons.mp haa with rfl | hmem
    · omega
    · exact Nat.lt_succ_of_lt (h1 a hmem)
  · right
    rfl

/-! Structural steppers: extend a `StepOk` fact across one state
operation, mirroring the shape of the post-state term. -/

theorem StepOk_bump {s s' : EmitterState} (h : StepOk s s') : StepOk s (bumpId s') :=
  StepOk_trans h (StepOk_alloc rfl rfl rfl)

theorem StepOk_addin {s s' : EmitterState} (op : Nat) (ws : List Nat) (h : StepOk s s') :
    StepOk s (add_instruction s' op ws) :=
  StepOk_trans h (StepOk_same rfl rfl rfl)

theorem StepOk_addinT {s s' : EmitterState} (op : Nat) (ws : List Nat) (h : StepOk s s') :
    StepOk s (add_instruction_types s' op ws) :=
  StepOk_trans h (StepOk_same rfl rfl rfl)

theorem StepOk_pushKStep {s s' : EmitterState} (ws : List Nat) (h : StepOk s s') :
    StepOk s (pushKernels s' ws) :=
  StepOk_trans h (StepOk_same rfl rfl rfl)

theorem StepOk_pushTStep {s s' : EmitterState} (ws : List Nat) (h : StepOk s s') :
    StepOk s (pushTypes s' ws) :=
  StepOk_trans h (StepOk_same rfl rfl rfl)

theorem StepOk_setIdStep {s s' : EmitterState} (i : Nat) (h : StepOk s s') :
    StepOk s (setId s' i) :=
  StepOk_trans h (StepOk_same rfl rfl rfl)

theorem StepOk_symb {s s' : EmitterState} (st : List (String × Nat)) (h : StepOk s s') :
    StepOk s { s' with symbol_table := st } :=
  StepOk_trans h (StepOk_same rfl rfl rfl)

theorem ebind_ok_inv {α β : Type} {x : Except EmitError α} {f : α → Except EmitError β}
    {b : β} (h : ebind x f = Except.ok b) : ∃ a, x = Except.ok a ∧ f a = Except.ok b := by
  cases x with
  | error e => exact nomatch h
  | ok a => exact ⟨a, rfl, h⟩

theorem StepOk_scalar_type_entry {t : HType} {s : EmitterState} {r : Nat × EmitterState}
    (h : scalar_type_entry t s = Except.ok r) : StepOk s r.2 := by
  unfold scalar_type_entry at h
  split at h
  · simp only [freshId, add_instruction_types, pushTypes] at h
    cases h
    exact StepOk_alloc rfl rfl rfl
  · split at h
    · simp only [freshId, add_instruction_types, pushTypes] at h
      cases h
      exact StepOk_alloc rfl rfl rfl
    · split at h
      · simp only [freshId, add_instruction_types, pushTypes] at h
        cases h
        exact StepOk_alloc rfl rfl rfl
      · exact nomatch h

theorem StepOk_map_type {t : HType} {s : EmitterState} {r : Nat × EmitterState}
    (h : map_type t s = Except.ok r) : StepOk s r.2 := by
  unfold map_type at h
  split at h
  · cases h
    exact StepOk_rfl s
  · split at h
    · obtain ⟨rb, hb, h⟩ := ebind_ok_inv h
      have hstep : StepOk s rb.2 := by
        split at hb
        · cases hb
          exact StepOk_rfl s
        · exact StepOk_scalar_type_entry hb
      simp only [freshId, add_instruction_types, pushTypes] at h
      cases h
      exact StepOk_trans hstep (StepOk_alloc rfl rfl rfl)
    · exact StepOk_scalar_type_entry h

theorem StepOk_map_pointer_type_local {t : HType} {s : EmitterState} {r : Nat × EmitterState}
    (h : map_pointer_type_local t s = Except.ok r) : StepOk s r.2 := by
  simp only [map_pointer_type_local] at h
  split at h
  · obtain ⟨rb, hb, h⟩ := ebind_ok_inv h
    simp only [freshId, add_instruction_types, pushTypes] at h
    cases h
    exact StepOk_trans (StepOk_map_type hb) (StepOk_alloc rfl rfl rfl)
  · cases h
    exact StepOk_rfl s

theorem StepOk_emit_constant {t : HType} {d : List Nat} {s : EmitterState}
    {r : Nat × EmitterState} (h : emit_constant t d s = Except.ok r) : StepOk s r.2 := by
  simp only [emit_constant] at h
  split at h
  · cases h
    exact StepOk_rfl s
  · obtain ⟨rm, hm, h⟩ := ebind_ok_inv h
    simp only [freshId, pushKernels, pushTypes] at h
    cases h
    exact StepOk_trans (StepOk_map_type hm) (StepOk_alloc rfl rfl rfl)

theorem forLoopHead_state_StepOk (a b c d : Nat) (s : EmitterState) :
    StepOk s (forLoopHead a b c d s).state := by
  simp only [forLoopHead, freshId]
  apply StepOk_addin
  apply StepOk_addin
  apply StepOk_addin
  apply StepOk_bump
  apply StepOk_addin
  apply StepOk_bump
  apply StepOk_addin
  apply StepOk_addin
  apply StepOk_addin
  apply StepOk_addin
  apply StepOk_bump
  apply StepOk_bump
  apply StepOk_bump
  apply StepOk_bump
  apply StepOk_bump
  apply StepOk_addin
  apply StepOk_bump
  apply StepOk_addin
  apply StepOk_bump
  exact StepOk_rfl s

/-! The per-fuel preservation statements of the seven visitor functions,
named so the induction below can pass them around. -/

abbrev EHyp (n : Nat) : Prop := ∀ e s s', visitE n e s = Except.ok s' → StepOk s s'

abbrev SHyp (n : Nat) : Prop := ∀ st s s', visitS n st s = Except.ok s' → StepOk s s'

abbrev BHyp (n : Nat) : Prop :=
  ∀ t a b op s s', visit_binop n t a b op s = Except.ok s' → StepOk s s'

abbrev IEHyp (n : Nat) : Prop :=
  ∀ c tv fv s r, emit_if_then_elseE n c tv fv s = Except.ok r → StepOk s r.2

abbrev ISHyp (n : Nat) : Prop :=
  ∀ c ts es s r, emit_if_then_elseS n c ts es s = Except.ok r → StepOk s r.2

abbrev ScHyp (n : Nat) : Prop := ∀ e s s', scalarize n e s = Except.ok s' → StepOk s s'

abbrev SLHyp (n : Nat) : Prop :=
  ∀ e tid k i rid s s', scalarize_loop n e tid k i rid s = Except.ok s' → StepOk s s'

theorem stepB (n : Nat) (ihE : EHyp n) : BHyp (n + 1) := by
  intro t a b op s s' h
  simp only [visit_binop] at h
  obtain ⟨rm, hm, h⟩ := ebind_ok_inv h
  obtain ⟨s1, hva, h⟩ := ebind_ok_inv h
  obtain ⟨s2, hvb, h⟩ := ebind_ok_inv h
  simp only [freshId] at h
  cases h
  apply StepOk_setIdStep
  apply StepOk_addin
  apply StepOk_bump
  exact StepOk_trans (StepOk_trans (StepOk_map_type hm) (ihE _ _ _ hva)) (ihE _ _ _ hvb)

theorem stepIE (n : Nat) (ihE : EHyp n) : IEHyp (n + 1) := by
  intro c tv fv s r h
  simp only [emit_if_then_elseE] at h
  obtain ⟨s0, hc, h⟩ := ebind_ok_inv h
  simp only [freshId] at h
  obtain ⟨s2, ht, h⟩ := ebind_ok_inv h
  obtain ⟨s4, hf, h⟩ := ebind_ok_inv h
  cases h
  dsimp only
  apply StepOk_addin
  refine StepOk_trans ?_ (ihE _ _ _ hf)
  apply StepOk_addin
  apply StepOk_addin
  refine StepOk_trans ?_ (ihE _ _ _ ht)
  apply StepOk_addin
  apply StepOk_addin
  apply StepOk_bump
  apply StepOk_bump
  apply StepOk_bump
  exact ihE _ _ _ hc

theorem stepIS (n : Nat) (ihE : EHyp n) (ihS : SHyp n) : ISHyp (n + 1) := by
  intro c ts es s r h
  simp only [emit_if_then_elseS] at h
  obtain ⟨s0, hc, h⟩ := ebind_ok_inv h
  simp only [freshId] at h
  obtain ⟨s2, ht, h⟩ := ebind_ok_inv h
  obtain ⟨s4, hf, h⟩ := ebind_ok_inv h
  cases h
  dsimp only
  apply StepOk_addin
  refine StepOk_trans ?_ (ihS _ _ _ hf)
  apply StepOk_addin
  apply StepOk_addin
  refine StepOk_trans ?_ (ihS _ _ _ ht)
  apply StepOk_addin
  apply StepOk_addin
  apply StepOk_bump
  apply StepOk_bump
  apply StepOk_bump
  exact ihE _ _ _ hc

theorem stepSL (n : Nat) (ihE : EHyp n) (ihSL : SLHyp n) : SLHyp (n + 1) := by
  intro e tid k i rid s s' h
  cases k with
  | zero =>
    simp only [scalarize_loop] at h
    cases h
    apply StepOk_setIdStep
    exact StepOk_rfl s
  | succ rr =>
    simp only [scalarize_loop] at h
    obtain ⟨s1, hv, h⟩ := ebind_ok_inv h
    simp only [freshId] at h
    refine StepOk_trans ?_ (ihSL _ _ _ _ _ _ _ h)
    apply StepOk_addin
    apply StepOk_bump
    exact ihE _ _ _ hv

theorem stepSc (n : Nat) (ihSL : SLHyp n) : ScHyp (n + 1) := by
  intro e s s' h
  simp only [scalarize] at h
  split at h
  · exact nomatch h
  · obtain ⟨rm, hm, h⟩ := ebind_ok_inv h
    simp only [freshId] at h
    refine StepOk_trans ?_ (ihSL _ _ _ _ _ _ _ h)
    apply StepOk_addin
    apply StepOk_bump
    exact StepOk_map_type hm

theorem stepE (n : Nat) (ihE : EHyp n) (ihB : BHyp n) (ihIE : IEHyp n) (ihSc : ScHyp n) :
    EHyp (n + 1) := by
  intro e s s' h
  cases e with
  | intImm t v =>
    simp only [visitE] at h
    obtain ⟨r, hec, h⟩ := ebind_ok_inv h
    cases h
    apply StepOk_setIdStep
    exact StepOk_emit_constant hec
  | uintImm t v =>
    simp only [visitE] at h
    obtain ⟨r, hec, h⟩ := ebind_ok_inv h
    cases h
    apply StepOk_setIdStep
    exact StepOk_emit_constant hec
  | floatImm t bytes =>
    simp only [visitE] at h
    obtain ⟨r, hec, h⟩ := ebind_ok_inv h
    cases h
    apply StepOk_setIdStep
    exact StepOk_emit_constant hec
  | var t name =>
    simp only [visitE] at h
    split at h
    · cases h
      apply StepOk_setIdStep
      exact StepOk_rfl s
    · exact nomatch h
  | select c tv fv =>
    simp only [visitE] at h
    obtain ⟨r0, hm, h⟩ := ebind_ok_inv h
    obtain ⟨s1, hc, h⟩ := ebind_ok_inv h
    obtain ⟨s2, ht, h⟩ := ebind_ok_inv h
    obtain ⟨s3, hf, h⟩ := ebind_ok_inv h
    simp only [freshId] at h
    cases h
    apply StepOk_setIdStep
    apply StepOk_addin
    apply StepOk_bump
    exact StepOk_trans (StepOk_trans (StepOk_trans (StepOk_map_type hm)
      (ihE _ _ _ hc)) (ihE _ _ _ ht)) (ihE _ _ _ hf)
  | div a b =>
    simp only [visitE] at h
    split at h
    · exact nomatch h
    · split at h
      · exact ihB _ _ _ _ _ _ h
      · exact ihE _ _ _ h
  | mod a b =>
    simp only [visitE] at h
    split at h
    · exact ihB _ _ _ _ _ _ h
    · exact ihE _ _ _ h
  | call t cname args =>
    cases cname with
    | if_then_else =>
      rcases args with _ | ⟨a1, _ | ⟨a2, _ | ⟨a3, _ | ⟨a4, tl⟩⟩⟩⟩
      · simp only [visitE] at h
        split at h
        · exact ihSc _ _ _ h
        · exact nomatch h
      · simp only [visitE] at h
        split at h
        · exact ihSc _ _ _ h
        · exact nomatch h
      · simp only [visitE] at h
        split at h
        · exact ihSc _ _ _ h
        · exact nomatch h
      · simp only [visitE] at h
        split at h
        · exact ihSc _ _ _ h
        · obtain ⟨rie, hie, h⟩ := ebind_ok_inv h
          obtain ⟨rm, hm, h⟩ := ebind_ok_inv h
          simp only [freshId] at h
          cases h
          apply StepOk_setIdStep
          apply StepOk_pushKStep
          apply StepOk_bump
          exact StepOk_trans (ihIE _ _ _ _ _ hie) (StepOk_map_type hm)
      · simp only [visitE] at h
        split at h
        · exact ihSc _ _ _ h
        · exact nomatch h
    | div_round_to_zero =>
      rcases args with _ | ⟨a1, _ | ⟨a2, _ | ⟨a3, tl⟩⟩⟩
      · exact nomatch h
      · exact nomatch h
      · simp only [visitE] at h
        split at h
        · exact ihB _ _ _ _ _ _ h
        · split at h
          · exact ihB _ _ _ _ _ _ h
          · exact nomatch h
      · exact nomatch h
    | mod_round_to_zero =>
      rcases args with _ | ⟨a1, _ | ⟨a2, _ | ⟨a3, tl⟩⟩⟩
      · exact nomatch h
      · exact nomatch h
      · simp only [visitE] at h
        split at h
        · exact ihB _ _ _ _ _ _ h
        · split at h
          · exact ihB _ _ _ _ _ _ h
          · exact nomatch h
      · exact nomatch h
    | other nm =>
      simp only [visitE] at h
      cases h
      exact StepOk_rfl s
  | shuffle t vectors indices =>
    simp only [visitE] at h
    rcases vectors with _ | ⟨v0, _ | ⟨v1, _ | ⟨v2, tl⟩⟩⟩
    · exact nomatch h
    · exact nomatch h
    · obtain ⟨rm, hm, h⟩ := ebind_ok_inv h
      obtain ⟨s1, h0, h⟩ := ebind_ok_inv h
      obtain ⟨s2, h1, h⟩ := ebind_ok_inv h
      simp only [freshId] at h
      cases h
      apply StepOk_setIdStep
      apply StepOk_pushKStep
      apply StepOk_bump
      exact StepOk_trans (StepOk_trans (StepOk_map_type hm) (ihE _ _ _ h0)) (ihE _ _ _ h1)
    · exact nomatch h
  | load t name index =>
    simp only [visitE] at h
    cases h
    exact StepOk_rfl s
  | letE name value body =>
    simp only [visitE] at h
    obtain ⟨s1, hv, h⟩ := ebind_ok_inv h
    obtain ⟨s2, hb, h⟩ := ebind_ok_inv h
    cases h
    apply StepOk_symb
    refine StepOk_trans ?_ (ihE _ _ _ hb)
    apply StepOk_symb
    exact ihE _ _ _ hv

theorem stepS_for (n : Nat) (ihE : EHyp n) (ihS : SHyp n)
    (name : String) (min extent : Expr) (ftype : ForType) (body : Stmt)
    (s s' : EmitterState)
    (h : visitS (n + 1) (Stmt.for_ name min extent ftype body) s = Except.ok s') :
    StepOk s s' := by
  cases ftype with
  | parallel => exact nomatch h
  | vectorized => exact nomatch h
  | unrolled => exact nomatch h
  | serial =>
    have h2 : (ebind (map_type int32T s) (fun rA =>
        ebind (map_pointer_type_local int32T rA.2) (fun rB =>
        ebind (visitE n min rB.2) (fun sMin =>
        ebind (visitE n extent sMin) (fun sExt =>
          let fh := forLoopHead rA.1 rB.1 sMin.id sExt.id sExt
          ebind (visitS n body
            { fh.state with symbol_table := (name, fh.cur_index_id) :: fh.state.symbol_table })
            (fun s2 =>
              let s3 := { s2 with symbol_table := fh.state.symbol_table }
              let s3 := add_instruction s3 SpvOpBranch [fh.continue_label_id]
              let s3 := add_instruction s3 SpvOpLabel [fh.continue_label_id]
              let (next_index_id, s3) := freshId s3
              ebind (emit_constant int32T [1, 0, 0, 0] s3) (fun rC =>
                let s4 := add_instruction rC.2 SpvOpIAdd [rA.1, next_index_id, fh.cur_index_id, rC.1]
                let s4 := add_instruction s4 SpvOpStore [rA.1, next_index_id, fh.loop_var_id]
                let s4 := add_instruction s4 SpvOpBranch [fh.header_label_id]
                let s4 := add_instruction s4 SpvOpLabel [fh.merge_label_id]
                Except.ok s4))))))) = Except.ok s' := h
    obtain ⟨rA, hA, h3⟩ := ebind_ok_inv h2
    obtain ⟨rB, hB, h3⟩ := ebind_ok_inv h3
    obtain ⟨sMin, hMin, h3⟩ := ebind_ok_inv h3
    obtain ⟨sExt, hExt, h3⟩ := ebind_ok_inv h3
    obtain ⟨s2, hBody, h3⟩ := ebind_ok_inv h3
    simp only [freshId] at h3
    obtain ⟨rC, hC, h3⟩ := ebind_ok_inv h3
    cases h3
    apply StepOk_addin
    apply StepOk_addin
    apply StepOk_addin
    apply StepOk_addin
    refine StepOk_trans ?_ (StepOk_emit_constant hC)
    apply StepOk_bump
    apply StepOk_addin
    apply StepOk_addin
    apply StepOk_symb
    refine StepOk_trans ?_ (ihS _ _ _ hBody)
    apply StepOk_symb
    refine StepOk_trans ?_ (forLoopHead_state_StepOk _ _ _ _ _)
    exact StepOk_trans (StepOk_trans (StepOk_trans (StepOk_map_type hA)
      (StepOk_map_pointer_type_local hB)) (ihE _ _ _ hMin)) (ihE _ _ _ hExt)

theorem stepS (n : Nat) (ihE : EHyp n) (ihS : SHyp n) (ihIS : ISHyp n) : SHyp (n + 1) := by
  intro st s s' h
  cases st with
  | evaluate e =>
    simp only [visitS] at h
    exact ihE _ _ _ h
  | assertStmt c m =>
    simp only [visitS] at h
    cases h
    exact StepOk_rfl s
  | producerConsumer name isp body =>
    simp only [visitS] at h
    cases h
    exact StepOk_rfl s
  | letStmt name value body =>
    simp only [visitS] at h
    obtain ⟨s1, hv, h⟩ := ebind_ok_inv h
    obtain ⟨s2, hb, h⟩ := ebind_ok_inv h
    cases h
    apply StepOk_setIdStep
    apply StepOk_symb
    refine StepOk_trans ?_ (ihS _ _ _ hb)
    apply StepOk_symb
    exact ihE _ _ _ hv
  | for_ name min extent ftype body =>
    exact stepS_for n ihE ihS name min extent ftype body s s' h
  | ifThenElse c then_case else_case =>
    simp only [visitS] at h
    obtain ⟨r, hie, h⟩ := ebind_ok_inv h
    cases h
    exact ihIS _ _ _ _ _ hie
  | store name value index =>
    simp only [visitS] at h
    cases h
    exact StepOk_rfl s
  | provide name => exact nomatch h
  | allocate name t body =>
    simp only [visitS] at h
    cases h
    exact StepOk_rfl s
  | free_ name =>
    simp only [visitS] at h
    cases h
    exact StepOk_rfl s
  | realize name => exact nomatch h
  | prefetch name => exact nomatch h
  | fork stA stB => exact nomatch h
  | acquire sem cnt body => exact nomatch h

/-- Every successful visit preserves the header words and transports the
identifier invariant, at every fuel, over all seven mutually recursive
visitor functions. -/
theorem visit_StepOk (n : Nat) :
    EHyp n ∧ SHyp n ∧ BHyp n ∧ IEHyp n ∧ ISHyp n ∧ ScHyp n ∧ SLHyp n := by
  induction n with
  | zero =>
    refine ⟨?_, ?_, ?_, ?_, ?_, ?_, ?_⟩
    · intro e s s' h
      exact nomatch h
    · intro st s s' h
      exact nomatch h
    · intro t a b op s s' h
      exact nomatch h
    · intro c tv fv s r h
      exact nomatch h
    · intro c ts es s r h
      exact nomatch h
    · intro e s s' h
      exact nomatch h
    · intro e tid k i rid s s' h
      exact nomatch h
  | succ n ih =>
    obtain ⟨ihE, ihS, ihB, ihIE, ihIS, ihSc, ihSL⟩ := ih
    exact ⟨stepE n ihE ihB ihIE ihSc, stepS n ihE ihS ihIS,
      stepB n ihE, stepIE n ihE, stepIS n ihE ihS, stepSc n ihSL, stepSL n ihE ihSL⟩

theorem run_kernels_StepOk (fuel : Nat) (ks : List Stmt) (s s' : EmitterState)
    (h : run_kernels fuel ks s = Except.ok s') : StepOk s s' := by
  induction ks generalizing s with
  | nil =>
    simp only [run_kernels] at h
    cases h
    exact StepOk_rfl _
  | cons k ks ihk =>
    simp only [run_kernels, add_kernel] at h
    obtain ⟨s1, h1, h⟩ := ebind_ok_inv h
    exact StepOk_trans ((visit_StepOk fuel).2.1 _ _ _ h1) (ihk _ h)

/-- C8: for every session (an `init_module`, any kernels added at any fuel,
then `compile_to_src`), the returned blob is exactly the concatenation of
the four section word streams in the fixed order header, entry points,
types/constants, function bodies — no words added, dropped or reordered —
with the fourth header word (the position-3 placeholder of the 5-word
header) patched to `next_id`; and whenever the session allocated anything,
`next_id` is one past the highest identifier allocated during the session,
so the patched bound word reads highest + 1 and bounds every allocated
identifier. -/
theorem c8_finalize_bound_and_concatenation (fuel next0 : Nat) (ks : List Stmt)
    (blob : List Nat) (s' : EmitterState)
    (h : runSession fuel next0 ks = Except.ok (blob, s')) :
    blob = s'.spir_v_header.set 3 s'.next_id ++ s'.spir_v_entrypoints ++ s'.spir_v_types ++
      s'.spir_v_kernels ∧
    s'.spir_v_header = [SpvMagicNumber, SpvVersion, SpvSourceLanguageUnknown, 0, 0] ∧
    blob.get? 3 = some s'.next_id ∧
    (∀ a ∈ s'.allocated, a < s'.next_id) ∧
    (s'.allocated ≠ [] → ∃ hmax, hmax ∈ s'.allocated ∧ (∀ a ∈ s'.allocated, a ≤ hmax) ∧
      blob.get? 3 = some (hmax + 1)) := by
  obtain ⟨sf, hrun, h2⟩ := ebind_ok_inv h
  injection h2 with h3
  injection h3 with hb hs
  subst hs
  subst hb
  have hstep := run_kernels_StepOk fuel ks _ _ hrun
  have hdr : sf.spir_v_header = [SpvMagicNumber, SpvVersion, SpvSourceLanguageUnknown, 0, 0] := by
    rw [hstep.1]
    rfl
  have hinv : IdInv sf := hstep.2 ⟨fun a ha => absurd ha (List.not_mem_nil a), Or.inl rfl⟩
  have hget : (compile_to_src sf).get? 3 = some sf.next_id := by
    simp only [compile_to_src, hdr]
    rfl
  refine ⟨rfl, hdr, hget, hinv.1, ?_⟩
  intro hne
  rcases hinv.2 with hempty | hhead
  · exact absurd hempty hne
  · have hmem : sf.next_id - 1 ∈ sf.allocated := List.mem_of_mem_head? hhead
    have hpos : sf.next_id - 1 < sf.next_id := hinv.1 _ hmem
    refine ⟨sf.next_id - 1, hmem, ?_, ?_⟩
    · intro a ha
      have := hinv.1 a ha
      omega
    · rw [hget]
      congr 1
      omega

/-- Witness for C8: a session with a single kernel evaluating the Int 32
literal 7, started at counter 1, allocates ids 1 (the int type) and 2 (the
constant); the blob is header (bound patched to 3) ⧺ types ⧺ kernels, and
its fourth word is 3 = highest allocated + 1. -/
theorem c8_finalize_witness :
    ∃ (blob : List Nat) (s' : EmitterState),
      runSession 4 1 [Stmt.evaluate (Expr.intImm int32T 7)] = Except.ok (blob, s') ∧
      blob = s'.spir_v_header.set 3 s'.next_id ++ s'.spir_v_entrypoints ++ s'.spir_v_types ++
        s'.spir_v_kernels ∧
      blob = [119734787, 65536, 0, 3, 0, 262165, 1, 32, 0, 7, 262187, 1, 2] ∧
      blob.get? 3 = some 3 := by
  have h := c8_finalize_bound_and_concatenation 4 1 [Stmt.evaluate (Expr.intImm int32T 7)] _ _ rfl
  exact ⟨_, _, rfl, h.1, rfl, h.2.2.1⟩

end VulkanSpv
